import Mathlib

/-!
Verification development for the enzengDPA repository
(scripts/blast.py, scripts/msa.py, scripts/ncbi_search.py).

The Python sources are shallowly embedded as executable Lean definitions.
Remote HTTP responses are abstracted into an environment record holding the
response bodies the code would observe; logging (print) side effects are not
modelled; file-system effects of the alignment routine are modelled as the
list of temporary files present on disk when the function returns.
-/

/-! ## Generic helpers -/

deriving instance DecidableEq for Except

/-- Substring containment on character lists: does the list contain `pat`
as a contiguous infix?  Models the Python expression `pat in text`. -/
def listContains (pat : List Char) : List Char → Bool
  | [] => pat.isEmpty
  | c :: rest => pat.isPrefixOf (c :: rest) || listContains pat rest

/-- Models Python string containment `pat in text`. -/
def strContains (text pat : String) : Bool :=
  listContains pat.toList text.toList

/-- Split a character list at every occurrence of `sep`, keeping empty
groups.  Helper for `pySplitChar`. -/
def splitOnCharList (sep : Char) : List Char → List (List Char)
  | [] => [[]]
  | c :: rest =>
    match splitOnCharList sep rest with
    | [] => [[]]
    | grp :: rst => if c = sep then [] :: grp :: rst else (c :: grp) :: rst

/-- Models Python `s.split(sep)` for a one-character separator: empty
parts are kept, and a string with no separator yields the one-element list
holding the whole string. -/
def pySplitChar (s : String) (sep : Char) : List String :=
  (splitOnCharList sep s.toList).map (fun l => ⟨l⟩)

/-- Floor of a rational number, computed from numerator and denominator. -/
def ratFloor (q : ℚ) : ℤ :=
  Int.fdiv q.num (q.den : ℤ)

/-- Round a rational to the nearest integer, ties to even.  Models Python 3
built-in `round(x)` (banker's rounding), on exact rational values. -/
def roundHalfEven (q : ℚ) : ℤ :=
  if q - (ratFloor q : ℚ) < 1 / 2 then ratFloor q
  else if (1 / 2 : ℚ) < q - (ratFloor q : ℚ) then ratFloor q + 1
  else if ratFloor q % 2 = 0 then ratFloor q else ratFloor q + 1

/-- Models Python `round(x, 2)`: round to 2 decimal places, ties to even. -/
def pyRound2 (q : ℚ) : ℚ :=
  ((roundHalfEven (q * 100) : ℤ) : ℚ) / 100

/-! ## scripts/blast.py — status classification

The poll loop classifies a status-response body by testing the four markers
in order (`blast.py` lines 80-109 and 177-206).  `other` is the final `else`
branch (an unrecognized marker). -/

inductive BlastStatus
  | waiting
  | failed
  | unknown
  | ready
  | other
deriving DecidableEq

/-- Status classification of a response body, mirroring the if/elif chain of
the poll loops: `Status=WAITING`, then `Status=FAILED`, then
`Status=UNKNOWN`, then `Status=READY`, else unrecognized. -/
def statusOf (t : String) : BlastStatus :=
  if strContains t "Status=WAITING" then .waiting
  else if strContains t "Status=FAILED" then .failed
  else if strContains t "Status=UNKNOWN" then .unknown
  else if strContains t "Status=READY" then .ready
  else .other

/-- The string stored in the Python local `last_status` for each branch. -/
def statusName : BlastStatus → String
  | .waiting => "WAITING"
  | .failed => "FAILED"
  | .unknown => "UNKNOWN"
  | .ready => "READY"
  | .other => "OTHER"

/-- Abstraction of the remote BLAST service as seen by the code: the body of
the PUT (submission) response, the body of the k-th SearchInfo (status poll)
response, and the body of the FORMAT_TYPE=XML (final result) response.
HTTP transport errors are out of scope: the environment always yields a
response body. -/
structure BlastEnv where
  putResponse : String
  statusResponses : Nat → String
  resultPayload : String

/-- Observable outcome of one poll loop: the Python locals `last_status` and
`poll_count`, plus instrumentation for the number of status requests issued
and the total seconds slept, and whether the loop actually exited (`finished
= false` means the fuel bound was reached while the loop was still going —
the real loop has no such bound). -/
structure LoopOut where
  lastStatus : String
  pollCount : Nat
  requests : Nat
  sleepSecs : Nat
  finished : Bool
deriving DecidableEq

/-- The status-poll loop of `run_blast` (`blast.py` lines 61-109), with an
explicit fuel bound standing in for the unbounded `while`.  Each iteration
increments `poll_count`, issues exactly one status GET (reading the next
response from the environment), and either sleeps 15 seconds and continues
(WAITING) or records the status and exits the loop.  `ThereAreHits` only
selects a log message in the source and has no other effect. -/
def runBlastLoop (env : BlastEnv) : Nat → Nat → Nat → Nat → String → LoopOut
  | 0, pc, rq, sl, ls => ⟨ls, pc, rq, sl, false⟩
  | fuel + 1, pc, rq, sl, _ls =>
    match statusOf (env.statusResponses pc) with
    | .waiting => runBlastLoop env fuel (pc + 1) (rq + 1) (sl + 15) "WAITING"
    | .failed => ⟨"FAILED", pc + 1, rq + 1, sl, true⟩
    | .unknown => ⟨"UNKNOWN", pc + 1, rq + 1, sl, true⟩
    | .ready => ⟨"READY", pc + 1, rq + 1, sl, true⟩
    | .other => ⟨"OTHER", pc + 1, rq + 1, sl, true⟩

/-- Observable outcome of a poll-and-fetch flow: the returned pair, whether
the final FORMAT_TYPE=XML result request was issued, and the loop outcome. -/
structure FlowOut where
  rid : Option String
  payload : Option String
  resultFetched : Bool
  loopOut : LoopOut
deriving DecidableEq

/-- The post-submission stage of `run_blast` (`blast.py` lines 60-139):
run the poll loop, then, exactly when `last_status == 'READY'`, issue one
result fetch and return `(rid, xml_result)`; otherwise return `(None,
None)`.  The optional file export only writes a copy of the payload and is
not modelled. -/
def runBlastStage2 (env : BlastEnv) (rid : String) (fuel : Nat) : FlowOut :=
  let lo := runBlastLoop env fuel 0 0 0 ""
  if lo.lastStatus = "READY" then ⟨some rid, some env.resultPayload, true, lo⟩
  else ⟨none, none, false, lo⟩

/-- The status-poll loop of `get_blast_results` (`blast.py` lines 159-206),
translated separately from its own source lines; same fuel convention as
`runBlastLoop`. -/
def getBlastLoop (env : BlastEnv) : Nat → Nat → Nat → Nat → String → LoopOut
  | 0, pc, rq, sl, ls => ⟨ls, pc, rq, sl, false⟩
  | fuel + 1, pc, rq, sl, _ls =>
    match statusOf (env.statusResponses pc) with
    | .waiting => getBlastLoop env fuel (pc + 1) (rq + 1) (sl + 15) "WAITING"
    | .failed => ⟨"FAILED", pc + 1, rq + 1, sl, true⟩
    | .unknown => ⟨"UNKNOWN", pc + 1, rq + 1, sl, true⟩
    | .ready => ⟨"READY", pc + 1, rq + 1, sl, true⟩
    | .other => ⟨"OTHER", pc + 1, rq + 1, sl, true⟩

/-- `get_blast_results` (`blast.py` lines 151-236): poll, then fetch the
final payload exactly when `last_status == 'READY'`. -/
def get_blast_results (env : BlastEnv) (rid : String) (fuel : Nat) : FlowOut :=
  let lo := getBlastLoop env fuel 0 0 0 ""
  if lo.lastStatus = "READY" then ⟨some rid, some env.resultPayload, true, lo⟩
  else ⟨none, none, false, lo⟩

/-! ## scripts/blast.py — submission parameters and top-level run_blast -/

/-- Value of a query parameter: Python str, int, or float (floats modelled
as exact rationals). -/
inductive PVal
  | s (v : String)
  | i (v : Int)
  | q (v : ℚ)
deriving DecidableEq

/-- The `params_put` dictionary built by `run_blast` (`blast.py` lines
31-45), in insertion order.  Note the source hardcodes `DATABASE` to `'nr'`
and `PROGRAM` to `'blastp'`; the `database` and `program` arguments are
never read. -/
def run_blast_put_params (sequence organism database program : String)
    (word_size : Int) (expect_value : ℚ) (matrix gapcosts filter_string : String)
    (composition_stats : Int) : List (String × PVal) :=
  [("CMD", .s "Put"),
   ("QUERY", .s sequence),
   ("DATABASE", .s "nr"),
   ("PROGRAM", .s "blastp"),
   ("ENTREZ_QUERY", .s organism),
   ("OUTPUT_TYPE", .s "XML"),
   ("WORD_SIZE", .i word_size),
   ("EXPECT", .q expect_value),
   ("MATRIX", .s matrix),
   ("GAPCOSTS", .s gapcosts),
   ("FILTER", .s filter_string),
   ("COMPOSITION_BASED_STATISTICS", .i composition_stats)]

/-- The `try` block of `run_blast` (`blast.py` lines 49-141): if the PUT
response contains the marker `RID = `, extract the RID and run the
poll-and-fetch stage; otherwise raise (`Except.error` models an exception
in flight). -/
def run_blast_try (env : BlastEnv) (fuel : Nat) :
    Except String (Option String × Option String) :=
  let text_put := env.putResponse
  if strContains text_put "RID = " then
    let rid := ((((text_put.splitOn "RID = ").getD 1 "").splitOn "\n").getD 0 "").trim
    let out := runBlastStage2 env rid fuel
    .ok (out.rid, out.payload)
  else
    .error "No RID found in the PUT response. Aborting."

/-- Top-level `run_blast` (`blast.py` lines 12-145): the `except Exception`
handler catches any exception raised in the `try` block (including the
explicitly raised missing-RID one), logs it, and returns `(None, None)`.
An `Except.error` result would model an exception propagating to the
caller; the source never produces one. -/
def run_blast (env : BlastEnv) (fuel : Nat) :
    Except String (Option String × Option String) :=
  match run_blast_try env fuel with
  | .ok r => .ok r
  | .error _e => .ok (none, none)

/-! ## scripts/blast.py — XML-to-DataFrame conversion

The parsed XML tree handed to `convert_blast_xml_to_pd` is modelled as a
list of Hit elements, each carrying its text fields and the list of its
Hsp descendants (in document order); `hit.find('.//Hsp')` is the head of
that list.  The Python `int(...)` and `float(...)` coercions of the text
contents are embedded by typing those fields as `Int` / `ℚ` directly. -/

structure Hsp where
  hsp_num : String
  bit_score : ℚ
  score : Int
  evalue : String
  query_from : Int
  query_to : Int
  hit_from : Int
  hit_to : Int
  identity : Int
  positive : Int
  gaps : Int
  align_len : Int
  qseq : String
  hseq : String
  midline : String
deriving DecidableEq

structure BlastHit where
  hit_num : String
  hit_id : String
  hit_def : String
  hit_accession : String
  hit_len : String
  hsps : List Hsp
deriving DecidableEq

structure BlastXml where
  hits : List BlastHit
deriving DecidableEq

/-- One row dictionary appended by `convert_blast_xml_to_pd` (`blast.py`
lines 286-308), with the source's key order and value types. -/
structure BlastRow where
  Hit_num : String
  Hit_id : String
  Hit_def : String
  Hit_accession : String
  Hit_len : String
  Hsp_num : String
  Bit_score : ℚ
  Score : Int
  E_value : String
  Query_from : Int
  Query_to : Int
  Hit_from : Int
  Hit_to : Int
  Identity : Int
  Positive : Int
  Gaps : Int
  Align_len : Int
  Percent_identity : ℚ
  Query_seq : String
  Hit_seq : String
  Midline : String
deriving DecidableEq

/-- Build the row for one hit and its first Hsp (`blast.py` lines 260-308).
`Percent_identity` is `round(int(identity) / int(align_len) * 100, 2)`;
the Python true division raises on `align_len = 0`, a case outside the
well-definedness invariant (`align_len > 0`) and modelled by the rational
convention `x / 0 = 0`. -/
def mkRow (hit : BlastHit) (hsp : Hsp) : BlastRow :=
  { Hit_num := hit.hit_num,
    Hit_id := hit.hit_id,
    Hit_def := hit.hit_def,
    Hit_accession := hit.hit_accession,
    Hit_len := hit.hit_len,
    Hsp_num := hsp.hsp_num,
    Bit_score := hsp.bit_score,
    Score := hsp.score,
    E_value := hsp.evalue,
    Query_from := hsp.query_from,
    Query_to := hsp.query_to,
    Hit_from := hsp.hit_from,
    Hit_to := hsp.hit_to,
    Identity := hsp.identity,
    Positive := hsp.positive,
    Gaps := hsp.gaps,
    Align_len := hsp.align_len,
    Percent_identity := pyRound2 ((hsp.identity : ℚ) / (hsp.align_len : ℚ) * 100),
    Query_seq := hsp.qseq,
    Hit_seq := hsp.hseq,
    Midline := hsp.midline }

/-- The column labels of the row dictionaries, in insertion order
(21 labels). -/
def blastColumns : List String :=
  ["Hit_num", "Hit_id", "Hit_def", "Hit_accession", "Hit_len", "Hsp_num",
   "Bit_score", "Score", "E_value", "Query_from", "Query_to", "Hit_from",
   "Hit_to", "Identity", "Positive", "Gaps", "Align_len",
   "Percent_identity", "Query_seq", "Hit_seq", "Midline"]

/-- A pandas DataFrame built from a list of uniform row dictionaries. -/
structure BlastFrame where
  rows : List BlastRow
deriving DecidableEq

/-- Column labels of `pd.DataFrame(data)` where `data` is a list of
dictionaries that all share the keys of `blastColumns`: pandas infers the
columns from the rows, so an empty list yields an empty column index. -/
def frameColumns (f : BlastFrame) : List String :=
  if f.rows.isEmpty then [] else blastColumns

/-- `convert_blast_xml_to_pd` (`blast.py` lines 242-326): walk every Hit
element; a hit contributes one row built from its first Hsp descendant, or
no row when it has none (`if hsp is not None`).  The optional CSV export
only writes a copy of the table and is not modelled. -/
def convert_blast_xml_to_pd (xml : BlastXml) : BlastFrame :=
  ⟨xml.hits.filterMap (fun h => h.hsps.head?.map (mkRow h))⟩

/-! ## scripts/msa.py — perform_msa -/

/-- A Biopython SeqRecord as used here: sequence text, id, name and
description. -/
structure SeqRecord where
  seq : String
  id : String
  name : String
  description : String
deriving DecidableEq

/-- The query SeqRecord built from the first table row (`msa.py` lines
30-36).  Note: the source constructs this record but never appends it to
the `sequences` list. -/
def query_seq_record (row0 : BlastRow) (query_id : String) : SeqRecord :=
  ⟨row0.Query_seq, query_id, query_id, "Query Sequence: " ++ query_id⟩

/-- The SeqRecord built for one hit row (`msa.py` lines 43-56):
`Hit_id.split('|')` and, when it has more than one part, part 1 is the id,
otherwise `Hit_accession`. -/
def hit_seq_record (row : BlastRow) : SeqRecord :=
  match pySplitChar row.Hit_id '|' with
  | _ :: seq_id :: _ =>
    ⟨row.Hit_seq, seq_id, seq_id, seq_id ++ " | " ++ row.Hit_def⟩
  | _ =>
    ⟨row.Hit_seq, row.Hit_accession, row.Hit_accession,
     row.Hit_accession ++ " | " ++ row.Hit_def⟩

/-- The `sequences` list that `perform_msa` writes to the temporary FASTA
file (`msa.py` lines 27-70): `num_hits = max(0, num_sequences - 1)` rows
from the head of the table, each as a hit SeqRecord.  The query record is
built separately and never appended, so it is absent from this list. -/
def msaSequences (df : List BlastRow) (num_sequences : Int) : List SeqRecord :=
  let num_hits : Int := max 0 (num_sequences - 1)
  let top_hits := df.take num_hits.toNat
  top_hits.map hit_seq_record

/-- Behavior of the external `clustalo` invocation: the subprocess call may
itself raise (e.g. executable not found), or complete with an exit code,
possibly having created the output file. -/
inductive ClustaloBehavior
  | raises
  | exits (code : Int) (createsOutput : Bool)

/-- Environment of one `perform_msa` run: what `clustalo` does, and whether
reading the alignment output raises. -/
structure MsaEnv where
  clustalo : ClustaloBehavior
  readRaises : Bool

/-- File-system observable model of `perform_msa` (`msa.py` lines 16-103):
returns the alignment result (abstracted to `Option Unit`) together with
the temporary files still present on disk at return.  Paths mirrored from
the source: empty table and fewer-than-2-sequences returns happen before
any file is written; after writing the input file, a raising subprocess
call or a raising alignment read lands in the `except` handler, which
removes whichever temporary files exist; a completed subprocess with
non-zero exit code returns directly with no cleanup; on exit code 0 with a
readable output, both files are removed after the read. -/
def perform_msa_run (df : List BlastRow) (query_id : String)
    (num_sequences : Int) (env : MsaEnv) (suffix : String) :
    Option Unit × List String :=
  match df with
  | [] => (none, [])
  | row0 :: _ =>
    let _query_record := query_seq_record row0 query_id
    let sequences := msaSequences df num_sequences
    if sequences.length < 2 then (none, [])
    else
      let temp_fasta_in := "temp_input_" ++ suffix ++ ".fasta"
      let temp_aln_out := "temp_output_" ++ suffix ++ ".fasta"
      match env.clustalo with
      | .raises => (none, [])
      | .exits code createsOutput =>
        if code ≠ 0 then
          (none, temp_fasta_in :: (if createsOutput then [temp_aln_out] else []))
        else if env.readRaises ∨ createsOutput = false then (none, [])
        else (some (), [])

/-! ## scripts/ncbi_search.py — paged batch fetch -/

/-- The identifier slice of one batch call in `fetch_protein_info_batch`
(`ncbi_search.py` lines 41-48): `id_list[(b-1)*25 : b*25]`. -/
def fetch_protein_info_batch_ids (id_list : List String)
    (batch_number : Nat) : List String :=
  (id_list.drop ((batch_number - 1) * 25)).take 25

/-- The `id` parameter string of one batch call: `",".join(batch_ids)`. -/
def fetch_protein_info_batch_idstring (id_list : List String)
    (batch_number : Nat) : String :=
  String.intercalate "," (fetch_protein_info_batch_ids id_list batch_number)

/-- Default `end_batch` of `fetch_all_protein_data` (`ncbi_search.py` line
126): `(len(id_list) + 24) // 25`. -/
def default_end_batch (id_list : List String) : Nat :=
  (id_list.length + 24) / 25

/-- The sequence of remote page calls issued by `fetch_all_protein_data`
(`ncbi_search.py` lines 122-137), each represented by the identifier string
it carries: one call per `batch_num in range(start_batch, end_batch + 1)`. -/
def fetch_all_protein_data_calls (id_list : List String)
    (start_batch end_batch : Nat) : List String :=
  (List.range' start_batch (end_batch + 1 - start_batch)).map
    (fetch_protein_info_batch_idstring id_list)

/-! ## Concrete inputs used by witnesses and counterexamples -/

/-- A concrete Hsp with identity 45 over alignment length 90. -/
def hsp45 : Hsp :=
  { hsp_num := "1", bit_score := 100, score := 250, evalue := "1e-50",
    query_from := 1, query_to := 90, hit_from := 1, hit_to := 90,
    identity := 45, positive := 60, gaps := 0, align_len := 90,
    qseq := "QSEQAA", hseq := "HSEQAA", midline := "Q EQAA" }

/-- A concrete hit whose only Hsp is `hsp45`. -/
def hit45 : BlastHit :=
  { hit_num := "1", hit_id := "ref|WP_000045.1|", hit_def := "some protein",
    hit_accession := "WP_000045", hit_len := "90", hsps := [hsp45] }

/-- A one-hit parsed payload. -/
def xml45 : BlastXml := ⟨[hit45]⟩

/-- First concrete hit row for the alignment tests. -/
def row1 : BlastRow :=
  { Hit_num := "1", Hit_id := "ref|WP_000001|", Hit_def := "protein one",
    Hit_accession := "WP_000001", Hit_len := "200", Hsp_num := "1",
    Bit_score := 300, Score := 700, E_value := "0.0", Query_from := 1,
    Query_to := 200, Hit_from := 1, Hit_to := 200, Identity := 180,
    Positive := 190, Gaps := 0, Align_len := 200, Percent_identity := 90,
    Query_seq := "MSSLQUERYSEQ", Hit_seq := "MSSLHITONE", Midline := "MSSL" }

/-- Second concrete hit row for the alignment tests. -/
def row2 : BlastRow :=
  { Hit_num := "2", Hit_id := "gb|WP_000002|x", Hit_def := "protein two",
    Hit_accession := "WP_000002", Hit_len := "201", Hsp_num := "1",
    Bit_score := 290, Score := 690, E_value := "0.0", Query_from := 1,
    Query_to := 200, Hit_from := 1, Hit_to := 200, Identity := 170,
    Positive := 185, Gaps := 1, Align_len := 201, Percent_identity := 84.58,
    Query_seq := "MSSLQUERYSEQ", Hit_seq := "MSSLHITTWO", Midline := "MSSL" }

/-! ## Claim theorems -/

/-- C1: the sequence list that `perform_msa` writes to the temporary
interchange file is claimed to contain the query record followed by
min(num_sequences - 1, rows) hit records.  Evaluating the source on a
2-row table with the default num_sequences = 100 shows the list holds the
min(num_sequences - 1, rows) hit records only: the query record the
function builds is never appended, so no written record carries the query
identifier. -/
theorem perform_msa_omits_query :
    msaSequences [row1, row2] 100 = [hit_seq_record row1, hit_seq_record row2] ∧
    (msaSequences [row1, row2] 100).length = min (100 - 1) 2 ∧
    ((msaSequences [row1, row2] 100).filter (fun r => r.id == "Q1")).length = 0 ∧
    query_seq_record row1 "Q1" ∉ msaSequences [row1, row2] 100 ∧
    (query_seq_record row1 "Q1").id = "Q1" := by
  decide

/-- The `params_put` dictionary at a concrete failing input: the caller
asks for database `nr_cluster_seq` and program `blastn`. -/
def c2_params : List (String × PVal) :=
  run_blast_put_params "MSSLKG" "Bacillus[Organism]" "nr_cluster_seq"
    "blastn" 3 5 "PAM30" "9 2" "F" 0

/-- C2: the query sequence, organism filter, word size, significance
threshold, matrix, gap costs, filter string and composition-statistics
mode do pass through exactly as supplied, but the caller-supplied database
and program are ignored: the submission parameters carry the hardcoded
`nr` and `blastp` instead of the caller's `nr_cluster_seq` and `blastn`. -/
theorem run_blast_ignores_database_and_program :
    c2_params.lookup "QUERY" = some (.s "MSSLKG") ∧
    c2_params.lookup "ENTREZ_QUERY" = some (.s "Bacillus[Organism]") ∧
    c2_params.lookup "WORD_SIZE" = some (.i 3) ∧
    c2_params.lookup "EXPECT" = some (.q 5) ∧
    c2_params.lookup "MATRIX" = some (.s "PAM30") ∧
    c2_params.lookup "GAPCOSTS" = some (.s "9 2") ∧
    c2_params.lookup "FILTER" = some (.s "F") ∧
    c2_params.lookup "COMPOSITION_BASED_STATISTICS" = some (.i 0) ∧
    c2_params.lookup "DATABASE" = some (.s "nr") ∧
    c2_params.lookup "PROGRAM" = some (.s "blastp") ∧
    c2_params.lookup "DATABASE" ≠ some (.s "nr_cluster_seq") ∧
    c2_params.lookup "PROGRAM" ≠ some (.s "blastn") := by
  decide

/-- C3: evaluating `perform_msa` on a 2-row table: when the external
aligner completes with a non-zero exit code the function returns before
any cleanup and the temporary input file (and the output file, when the
aligner created one) is still on disk; the success path and the
raising-subprocess and raising-read paths do remove both files. -/
theorem perform_msa_leaves_temp_on_nonzero_exit :
    perform_msa_run [row1, row2] "Q1" 100 ⟨.exits 1 false, false⟩ "abc123" =
      (none, ["temp_input_abc123.fasta"]) ∧
    perform_msa_run [row1, row2] "Q1" 100 ⟨.exits 1 true, false⟩ "abc123" =
      (none, ["temp_input_abc123.fasta", "temp_output_abc123.fasta"]) ∧
    perform_msa_run [row1, row2] "Q1" 100 ⟨.exits 0 true, false⟩ "abc123" =
      (some (), []) ∧
    perform_msa_run [row1, row2] "Q1" 100 ⟨.exits 0 true, true⟩ "abc123" =
      (none, []) ∧
    perform_msa_run [row1, row2] "Q1" 100 ⟨.raises, false⟩ "abc123" =
      (none, []) := by
  decide

/-- A concrete submission environment whose PUT response carries no
`RID = ` marker. -/
def envNoRid : BlastEnv :=
  ⟨"<html>some error page</html>", fun _ => "Status=READY", "PAYLOAD"⟩

/-- C4 counterexample: on a PUT response without the `RID = ` marker,
`run_blast` returns the normal value `(None, None)` — no exception leaves
the function, contradicting the claim that the raised exception propagates
to the caller.  The internal raise does happen (`run_blast_try` errors) but
the function's own `except` handler swallows it. -/
theorem run_blast_no_rid_returns_none :
    run_blast envNoRid 1 = .ok (none, none) ∧
    run_blast_try envNoRid 1 =
      .error "No RID found in the PUT response. Aborting." ∧
    (∀ e : String, run_blast envNoRid 1 ≠ .error e) := by
  refine ⟨by decide, by decide, ?_⟩
  intro e h
  rw [show run_blast envNoRid 1 = .ok (none, none) from by decide] at h
  exact Except.noConfusion h

/-- C4 amended: when the submission response lacks the `RID = ` marker,
`run_blast` raises internally, but the exception is caught by the
function's own top-level handler, which logs it and returns `(None,
None)`; no exception propagates to the caller. -/
theorem run_blast_no_rid_caught (env : BlastEnv) (fuel : Nat)
    (h : strContains env.putResponse "RID = " = false) :
    run_blast_try env fuel =
      .error "No RID found in the PUT response. Aborting." ∧
    run_blast env fuel = .ok (none, none) := by
  have ht : run_blast_try env fuel =
      .error "No RID found in the PUT response. Aborting." := by
    simp [run_blast_try, h]
  exact ⟨ht, by simp [run_blast, ht]⟩

/-- C4 witness: the amended theorem applied to the concrete marker-free
environment. -/
theorem run_blast_no_rid_caught_witness :
    run_blast_try envNoRid 2 =
      .error "No RID found in the PUT response. Aborting." ∧
    run_blast envNoRid 2 = .ok (none, none) :=
  run_blast_no_rid_caught envNoRid 2 (by decide)

/-- C6 counterexample: on a payload with zero Hit entries the conversion
returns a table with zero rows, but its column set is empty rather than
the 21 declared labels — pandas infers columns from the (absent) rows. -/
theorem convert_empty_payload_columns :
    frameColumns (convert_blast_xml_to_pd ⟨[]⟩) = [] ∧
    frameColumns (convert_blast_xml_to_pd ⟨[]⟩) ≠ blastColumns ∧
    blastColumns.length = 21 := by
  decide

/-- C6 amended: a payload with zero Hit entries converts without error to
a table with zero rows and an empty column set. -/
theorem convert_empty_payload (xml : BlastXml) (h : xml.hits = []) :
    (convert_blast_xml_to_pd xml).rows = [] ∧
    frameColumns (convert_blast_xml_to_pd xml) = [] := by
  simp [convert_blast_xml_to_pd, frameColumns, h]

/-- C6 witness: the amended theorem at the concrete empty payload. -/
theorem convert_empty_payload_witness :
    (convert_blast_xml_to_pd ⟨[]⟩).rows = [] ∧
    frameColumns (convert_blast_xml_to_pd ⟨[]⟩) = [] :=
  convert_empty_payload ⟨[]⟩ rfl

/-! ## Poll-loop lemmas -/

/-- Helper: when the first `n` status responses from index `pc` are WAITING
and response `pc + n` is not, the poll loop of `run_blast` runs exactly
`n + 1` iterations: it issues `n + 1` status requests, sleeps 15 seconds
after each of the `n` WAITING responses, and exits storing the status of
the first non-WAITING response. -/
theorem runBlastLoop_waiting_then (env : BlastEnv) :
    ∀ (n fuel pc rq sl : Nat) (ls : String),
      (∀ k < n, statusOf (env.statusResponses (pc + k)) = BlastStatus.waiting) →
      statusOf (env.statusResponses (pc + n)) ≠ BlastStatus.waiting →
      n < fuel →
      runBlastLoop env fuel pc rq sl ls =
        ⟨statusName (statusOf (env.statusResponses (pc + n))),
         pc + n + 1, rq + n + 1, sl + 15 * n, true⟩ := by
  intro n
  induction n with
  | zero =>
    intro fuel pc rq sl ls _hw hne hf
    cases fuel with
    | zero => omega
    | succ f =>
      simp only [Nat.add_zero] at hne ⊢
      simp only [runBlastLoop]
      cases hst : statusOf (env.statusResponses pc) with
      | waiting => exact absurd hst hne
      | failed => simp [hst, statusName]
      | unknown => simp [hst, statusName]
      | ready => simp [hst, statusName]
      | other => simp [hst, statusName]
  | succ n ih =>
    intro fuel pc rq sl ls hw hne hf
    cases fuel with
    | zero => omega
    | succ f =>
      have h0 : statusOf (env.statusResponses pc) = BlastStatus.waiting := by
        have := hw 0 (Nat.succ_pos n)
        simpa using this
      simp only [runBlastLoop, h0]
      have hrec := ih f (pc + 1) (rq + 1) (sl + 15) "WAITING"
        (by
          intro k hk
          have hidx : pc + 1 + k = pc + (k + 1) := by omega
          rw [hidx]
          exact hw (k + 1) (by omega))
        (by
          have hidx : pc + 1 + n = pc + (n + 1) := by omega
          rw [hidx]
          exact hne)
        (by omega)
      have hidx : pc + 1 + n = pc + (n + 1) := by omega
      rw [hidx] at hrec
      have hrq : rq + 1 + n + 1 = rq + (n + 1) + 1 := by omega
      have hsl : sl + 15 + 15 * n = sl + 15 * (n + 1) := by omega
      rw [hrq, hsl] at hrec
      exact hrec

/-- Helper: when every status response is WAITING, the poll loop of
`run_blast` consumes all its fuel without exiting: for every bound it is
still unfinished, having issued one request and one 15-second sleep per
iteration.  The real loop has no fuel bound, so it never terminates. -/
theorem runBlastLoop_all_waiting (env : BlastEnv)
    (hw : ∀ k, statusOf (env.statusResponses k) = BlastStatus.waiting) :
    ∀ (fuel pc rq sl : Nat) (ls : String),
      (runBlastLoop env fuel pc rq sl ls).finished = false ∧
      (runBlastLoop env fuel pc rq sl ls).pollCount = pc + fuel ∧
      (runBlastLoop env fuel pc rq sl ls).requests = rq + fuel ∧
      (runBlastLoop env fuel pc rq sl ls).sleepSecs = sl + 15 * fuel := by
  intro fuel
  induction fuel with
  | zero => intro pc rq sl ls; simp [runBlastLoop]
  | succ f ih =>
    intro pc rq sl ls
    simp only [runBlastLoop, hw pc]
    have h := ih (pc + 1) (rq + 1) (sl + 15) "WAITING"
    refine ⟨h.1, ?_, ?_, ?_⟩
    · rw [h.2.1]; omega
    · rw [h.2.2.1]; omega
    · rw [h.2.2.2]; omega

/-- Helper: the two poll loops, translated separately from `run_blast` and
`get_blast_results`, compute the same function. -/
theorem runBlastLoop_eq_getBlastLoop (env : BlastEnv) :
    ∀ (fuel pc rq sl : Nat) (ls : String),
      runBlastLoop env fuel pc rq sl ls = getBlastLoop env fuel pc rq sl ls := by
  intro fuel
  induction fuel with
  | zero => intro pc rq sl ls; rfl
  | succ f ih =>
    intro pc rq sl ls
    simp only [runBlastLoop, getBlastLoop]
    cases hst : statusOf (env.statusResponses pc) <;> simp [hst, ih]

/-- Helper: the two poll-and-fetch flows compute the same function. -/
theorem flowsEq (env : BlastEnv) (rid : String) (fuel : Nat) :
    runBlastStage2 env rid fuel = get_blast_results env rid fuel := by
  simp only [runBlastStage2, get_blast_results, runBlastLoop_eq_getBlastLoop]

/-- C5: in both polling flows, when the loop reaches a response whose
status marker is READY (after any number of WAITING responses), one
additional result fetch is issued and `(rid, payload)` is returned — with
no condition on `ThereAreHits`, so also when the response says
`ThereAreHits=no`; when the loop instead reaches a FAILED, UNKNOWN or
unrecognized response, both flows stop with no result fetch and return
`(None, None)`. -/
theorem poll_status_dispatch (env : BlastEnv) (rid : String) (n fuel : Nat)
    (hw : ∀ k < n, statusOf (env.statusResponses k) = BlastStatus.waiting)
    (hfuel : n < fuel) :
    (statusOf (env.statusResponses n) = BlastStatus.ready →
      runBlastStage2 env rid fuel =
        ⟨some rid, some env.resultPayload, true, ⟨"READY", n + 1, n + 1, 15 * n, true⟩⟩ ∧
      get_blast_results env rid fuel =
        ⟨some rid, some env.resultPayload, true, ⟨"READY", n + 1, n + 1, 15 * n, true⟩⟩) ∧
    ((statusOf (env.statusResponses n) = BlastStatus.failed ∨
      statusOf (env.statusResponses n) = BlastStatus.unknown ∨
      statusOf (env.statusResponses n) = BlastStatus.other) →
      runBlastStage2 env rid fuel =
        ⟨none, none, false,
         ⟨statusName (statusOf (env.statusResponses n)), n + 1, n + 1, 15 * n, true⟩⟩ ∧
      get_blast_results env rid fuel =
        ⟨none, none, false,
         ⟨statusName (statusOf (env.statusResponses n)), n + 1, n + 1, 15 * n, true⟩⟩) := by
  have hw0 : ∀ k < n, statusOf (env.statusResponses (0 + k)) = BlastStatus.waiting := by
    simpa using hw
  constructor
  · intro hr
    have hne : statusOf (env.statusResponses (0 + n)) ≠ BlastStatus.waiting := by
      simp [hr]
    have hl := runBlastLoop_waiting_then env n fuel 0 0 0 "" hw0 hne hfuel
    simp only [Nat.zero_add] at hl
    rw [hr] at hl
    constructor
    · simp [runBlastStage2, hl, statusName]
    · rw [← flowsEq]
      simp [runBlastStage2, hl, statusName]
  · intro hc
    have hne : statusOf (env.statusResponses (0 + n)) ≠ BlastStatus.waiting := by
      rcases hc with h | h | h <;> simp [h]
    have hl := runBlastLoop_waiting_then env n fuel 0 0 0 "" hw0 hne hfuel
    simp only [Nat.zero_add] at hl
    have hnm : statusName (statusOf (env.statusResponses n)) ≠ "READY" := by
      rcases hc with h | h | h <;> simp [h, statusName]
    constructor
    · simp [runBlastStage2, hl, hnm]
    · rw [← flowsEq]
      simp [runBlastStage2, hl, hnm]

/-- An environment whose status response is READY with no hits. -/
def env5 : BlastEnv :=
  ⟨"RID = XYZ123\n", fun _ => "Status=READY\nThereAreHits=no", "PAYLOAD5"⟩

/-- An environment whose status responses all read FAILED. -/
def envFailed : BlastEnv :=
  ⟨"RID = F1\n", fun _ => "Status=FAILED", "PF"⟩

/-- C5 witness: at a concrete READY response carrying `ThereAreHits=no`,
both flows fetch and return the pair; at a concrete FAILED response both
flows return the absent pair with no fetch. -/
theorem poll_status_dispatch_witness :
    runBlastStage2 env5 "XYZ123" 1 =
      ⟨some "XYZ123", some "PAYLOAD5", true, ⟨"READY", 1, 1, 0, true⟩⟩ ∧
    strContains (env5.statusResponses 0) "ThereAreHits=no" = true ∧
    get_blast_results envFailed "F1" 1 =
      ⟨none, none, false, ⟨"FAILED", 1, 1, 0, true⟩⟩ :=
  ⟨((poll_status_dispatch env5 "XYZ123" 0 1 (by decide) (by decide)).1
      (by decide)).1,
   by decide,
   ((poll_status_dispatch envFailed "F1" 0 1 (by decide) (by decide)).2
      (Or.inl (by decide))).2⟩

/-- C9: behavior of the status-poll loop of `run_blast`.  First part: if
the first `n` responses are WAITING and response `n` is not, the loop
(given any fuel bound larger than `n`) terminates at that first
non-WAITING response, having issued exactly one status request per
iteration (`n + 1` in total, `pollCount = requests`) and slept a fixed 15
seconds after each WAITING response (`15 * n` seconds in total).  Second
part: if every response is WAITING, then for every fuel bound the loop is
still unfinished and has used one request and one 15-second sleep per
iteration — the source loop has no retry bound or timeout, so it never
terminates. -/
theorem run_blast_poll_loop_behavior (env : BlastEnv) :
    (∀ n fuel : Nat,
      (∀ k < n, statusOf (env.statusResponses k) = BlastStatus.waiting) →
      statusOf (env.statusResponses n) ≠ BlastStatus.waiting →
      n < fuel →
      runBlastLoop env fuel 0 0 0 "" =
        ⟨statusName (statusOf (env.statusResponses n)),
         n + 1, n + 1, 15 * n, true⟩) ∧
    ((∀ k : Nat, statusOf (env.statusResponses k) = BlastStatus.waiting) →
      ∀ fuel : Nat,
        (runBlastLoop env fuel 0 0 0 "").finished = false ∧
        (runBlastLoop env fuel 0 0 0 "").pollCount = fuel ∧
        (runBlastLoop env fuel 0 0 0 "").requests = fuel ∧
        (runBlastLoop env fuel 0 0 0 "").sleepSecs = 15 * fuel) := by
  constructor
  · intro n fuel hw hne hf
    have hw0 : ∀ k < n, statusOf (env.statusResponses (0 + k)) = BlastStatus.waiting := by
      simpa using hw
    have hne0 : statusOf (env.statusResponses (0 + n)) ≠ BlastStatus.waiting := by
      simpa using hne
    have hl := runBlastLoop_waiting_then env n fuel 0 0 0 "" hw0 hne0 hf
    simpa using hl
  · intro hw fuel
    have h := runBlastLoop_all_waiting env hw fuel 0 0 0 ""
    simpa using h

/-- An environment answering WAITING on every poll. -/
def envAllWaiting : BlastEnv :=
  ⟨"RID = W1\n", fun _ => "Status=WAITING", "PW"⟩

/-- An environment answering WAITING once, then READY. -/
def envOneWaiting : BlastEnv :=
  ⟨"RID = W2\n",
   fun k => if k = 0 then "Status=WAITING" else "Status=READY\nThereAreHits=yes",
   "PW2"⟩

/-- C9 witness: with one WAITING response followed by READY, the loop exits
after 2 iterations having slept 15 seconds; with all responses WAITING it
is still unfinished after consuming a fuel bound of 4, having slept 60
seconds. -/
theorem run_blast_poll_loop_behavior_witness :
    runBlastLoop envOneWaiting 5 0 0 0 "" = ⟨"READY", 2, 2, 15, true⟩ ∧
    (runBlastLoop envAllWaiting 4 0 0 0 "").finished = false ∧
    (runBlastLoop envAllWaiting 4 0 0 0 "").sleepSecs = 60 := by
  refine ⟨?_, ?_, ?_⟩
  · have h := (run_blast_poll_loop_behavior envOneWaiting).1 1 5
      (by decide) (by decide) (by decide)
    rw [h]
    decide
  · exact ((run_blast_poll_loop_behavior envAllWaiting).2 (fun _ => rfl) 4).1
  · exact ((run_blast_poll_loop_behavior envAllWaiting).2 (fun _ => rfl) 4).2.2.2

/-- C10: for every job handle, every sequence of status responses, every
result payload and every fuel bound, the post-submission polling-and-fetch
stage of `run_blast` returns the same outcome — returned pair, result
fetch, and loop observables — as `get_blast_results` on the same handle:
the two flows are behaviorally equivalent apart from logging. -/
theorem run_blast_stage_equiv_get_blast_results (env : BlastEnv)
    (rid : String) (fuel : Nat) :
    runBlastStage2 env rid fuel = get_blast_results env rid fuel :=
  flowsEq env rid fuel

/-- Helper: the rational floor of an integer is that integer. -/
theorem ratFloor_intCast (z : ℤ) : ratFloor (z : ℚ) = z := by
  unfold ratFloor
  rw [Rat.num_intCast, Rat.den_intCast]
  simp

/-- Helper: rounding an integer-valued rational returns that integer. -/
theorem roundHalfEven_intCast (z : ℤ) : roundHalfEven (z : ℚ) = z := by
  unfold roundHalfEven
  rw [ratFloor_intCast, sub_self]
  norm_num

/-- C7: every row produced by the conversion carries
`Percent_identity = round(Identity / Align_len * 100, 2)` (stated for
positive alignment length, the case where the Python division is defined);
in particular the concrete hit with identity 45 and alignment length 90
converts to a row whose percent identity is exactly 50. -/
theorem convert_percent_identity :
    (∀ xml : BlastXml, ∀ row ∈ (convert_blast_xml_to_pd xml).rows,
      0 < row.Align_len →
      row.Percent_identity =
        pyRound2 ((row.Identity : ℚ) / (row.Align_len : ℚ) * 100)) ∧
    (convert_blast_xml_to_pd xml45).rows.map (fun r => r.Percent_identity) =
      [50] := by
  constructor
  · intro xml row hrow _hpos
    simp only [convert_blast_xml_to_pd, List.mem_filterMap] at hrow
    obtain ⟨hit, _hhit, hmap⟩ := hrow
    obtain ⟨hsp, _hhead, hrow2⟩ := Option.map_eq_some'.mp hmap
    rw [← hrow2]
    rfl
  · rw [show (convert_blast_xml_to_pd xml45).rows = [mkRow hit45 hsp45]
      from rfl]
    simp only [List.map_cons, List.map_nil]
    rw [show (mkRow hit45 hsp45).Percent_identity =
      pyRound2 (((45 : ℤ) : ℚ) / ((90 : ℤ) : ℚ) * 100) from rfl]
    rw [show (((45 : ℤ) : ℚ) / ((90 : ℤ) : ℚ) * 100) = ((50 : ℤ) : ℚ) from by
      push_cast
      norm_num]
    rw [show pyRound2 ((50 : ℤ) : ℚ) = ((50 : ℤ) : ℚ) / 1 from by
      unfold pyRound2
      rw [show ((50 : ℤ) : ℚ) * 100 = ((5000 : ℤ) : ℚ) from by push_cast; norm_num]
      rw [roundHalfEven_intCast]
      push_cast
      norm_num]
    norm_num

/-- C7 witness: the general conversion theorem applied at the concrete
45-of-90 row produced from `xml45`. -/
theorem convert_percent_identity_witness :
    (mkRow hit45 hsp45).Percent_identity =
      pyRound2 (((mkRow hit45 hsp45).Identity : ℚ) /
        ((mkRow hit45 hsp45).Align_len : ℚ) * 100) :=
  convert_percent_identity.1 xml45 (mkRow hit45 hsp45)
    (List.Mem.head _) (by decide)

/-- C8: over an ordered 30-identifier list with the default `end_batch`,
the paged fetch issues exactly 2 page calls; the first call's slice is the
first 25 identifiers (page size 25) and the second call's identifier
string joins exactly identifiers 26 through 30 (zero-based indices
25..29, i.e. the drop-25 suffix, which has length 5). -/
theorem fetch_all_protein_data_pages (ids : List String)
    (h : ids.length = 30) :
    fetch_all_protein_data_calls ids 1 (default_end_batch ids) =
      [String.intercalate "," (ids.take 25),
       String.intercalate "," (ids.drop 25)] ∧
    (fetch_all_protein_data_calls ids 1 (default_end_batch ids)).length = 2 ∧
    fetch_protein_info_batch_ids ids 1 = ids.take 25 ∧
    (fetch_protein_info_batch_ids ids 1).length = 25 ∧
    fetch_protein_info_batch_ids ids 2 = ids.drop 25 ∧
    (ids.drop 25).length = 5 := by
  have hend : default_end_batch ids = 2 := by
    simp [default_end_batch, h]
  have hb1 : fetch_protein_info_batch_ids ids 1 = ids.take 25 := by
    show (ids.drop ((1 - 1) * 25)).take 25 = ids.take 25
    rw [show (1 - 1) * 25 = 0 from rfl]
    rfl
  have hb2 : fetch_protein_info_batch_ids ids 2 = ids.drop 25 := by
    have hle : (ids.drop 25).length ≤ 25 := by simp [h]
    show (ids.drop ((2 - 1) * 25)).take 25 = ids.drop 25
    rw [show (2 - 1) * 25 = 25 from rfl]
    exact List.take_of_length_le hle
  have hcalls : fetch_all_protein_data_calls ids 1 (default_end_batch ids) =
      [String.intercalate "," (ids.take 25),
       String.intercalate "," (ids.drop 25)] := by
    rw [hend]
    show (List.range' 1 (2 + 1 - 1)).map
      (fetch_protein_info_batch_idstring ids) = _
    rw [show (2 + 1 - 1) = 2 from rfl,
      show List.range' 1 2 = [1, 2] from rfl]
    simp [fetch_protein_info_batch_idstring, hb1, hb2]
  refine ⟨hcalls, by rw [hcalls]; rfl, hb1, ?_, hb2, by simp [h]⟩
  rw [hb1]
  simp [h]

/-- A concrete ordered list of 30 identifiers. -/
def ids30 : List String := (List.range 30).map (fun n => "ID" ++ toString n)

/-- C8 witness: the paging theorem at the concrete 30-identifier list. -/
theorem fetch_all_protein_data_pages_witness :
    (fetch_all_protein_data_calls ids30 1 (default_end_batch ids30)).length = 2 ∧
    fetch_protein_info_batch_ids ids30 2 = ids30.drop 25 :=
  ⟨(fetch_all_protein_data_pages ids30 (by simp [ids30])).2.1,
   (fetch_all_protein_data_pages ids30 (by simp [ids30])).2.2.2.2.1⟩
